import Mathlib

/-!
Shallow embedding of the TikTok Shop pricing calculator
(`src/client/src/lib/countryConfig.ts` and the price solver
`calculatePricing` of `src/client/src/pages/Home.tsx`).

JavaScript numbers are modelled as exact rationals (ℚ); the monetary
tolerance of 0.01 used by the solver makes this the intended idealised
semantics.  JavaScript's `undefined` for absent optional fields is
modelled with `Option`; the falsy-coalescing `a || b` on optional
numbers (where both `undefined` and `0` select `b`) is modelled by
`numOr`.  Display-only metadata of the country table (names, currency
symbols, free-text notes) is not consumed by any computation and is
omitted from the record.
-/

namespace TikTokPricing

/-- Product category, the enumerated set `{electronics, other}`
(`category: "electronics" | "other"` in the source). -/
inductive Category where
  | electronics
  | other
deriving DecidableEq

/-- JS `a || b` for an optional number `a`: both `undefined` and `0`
are falsy and fall through to `b`. -/
def numOr (a : Option ℚ) (b : ℚ) : ℚ :=
  match a with
  | some v => if v = 0 then b else v
  | none => b

/-- The nested `bxp` commission object of `commissionRate`
(Malaysia-only seller tier in `countryConfig.ts`). -/
structure CommissionTierSpec where
  electronics : Option ℚ := none
  other : Option ℚ := none
  range : Option (ℚ × ℚ) := none
deriving DecidableEq

/-- The `commissionRate` object of a country entry. -/
structure CommissionSpec where
  electronics : Option ℚ := none
  other : Option ℚ := none
  range : Option (ℚ × ℚ) := none
  bxp : Option CommissionTierSpec := none
deriving DecidableEq

/-- The `commerceGrowthRate` object of a country entry. -/
structure GrowthSpec where
  electronics : Option ℚ := none
  other : Option ℚ := none
  cap : Option ℚ := none
deriving DecidableEq

/-- The `orderProcessingFeeWaiver` object of a country entry. -/
structure WaiverSpec where
  newSeller : Bool
  newSellerDays : ℕ
  existingSeller : Bool
  existingSellerFreeOrders : ℕ
deriving DecidableEq

/-- A country entry of the reference table (`CountryConfig` in
`countryConfig.ts`), computation-relevant fields only. -/
structure CountryConfig where
  code : String
  exchangeRateToCNY : ℚ
  commissionRate : CommissionSpec
  transactionFeeRate : ℚ
  commerceGrowthRate : Option GrowthSpec := none
  infrastructureFee : Option ℚ := none
  orderProcessingFee : Option ℚ := none
  orderProcessingFeeWaiver : Option WaiverSpec := none
  vatRate : ℚ
  vatRange : ℚ × ℚ := (0, 0)
  dutyRateRange : ℚ × ℚ
deriving DecidableEq

/-- Thailand entry of `COUNTRIES`. -/
def THConfig : CountryConfig where
  code := "TH"
  exchangeRateToCNY := 20/100
  commissionRate := { electronics := some (535/10000), other := some (642/10000) }
  transactionFeeRate := 321/10000
  commerceGrowthRate := some { electronics := some (535/10000), other := some (642/10000), cap := some 199 }
  infrastructureFee := some (107/100)
  vatRate := 7/100
  dutyRateRange := (0, 30/100)

/-- Vietnam entry of `COUNTRIES`. -/
def VNConfig : CountryConfig where
  code := "VN"
  exchangeRateToCNY := 29/100000
  commissionRate := { other := some (5/100) }
  transactionFeeRate := 321/10000
  vatRate := 10/100
  dutyRateRange := (0, 30/100)

/-- Philippines entry of `COUNTRIES`. -/
def PHConfig : CountryConfig where
  code := "PH"
  exchangeRateToCNY := 13/100
  commissionRate := { range := some (5/100, 91/1000) }
  transactionFeeRate := 224/10000
  orderProcessingFee := some 3
  orderProcessingFeeWaiver := some
    { newSeller := true, newSellerDays := 90, existingSeller := true, existingSellerFreeOrders := 50 }
  vatRate := 12/100
  dutyRateRange := (0, 30/100)

/-- Malaysia entry of `COUNTRIES`. -/
def MYConfig : CountryConfig where
  code := "MY"
  exchangeRateToCNY := 160/100
  commissionRate :=
    { range := some (54/1000, 1026/10000), bxp := some { range := some (918/10000, 1458/10000) } }
  transactionFeeRate := 378/10000
  vatRate := 8/100
  dutyRateRange := (0, 30/100)

/-- Singapore entry of `COUNTRIES`. -/
def SGConfig : CountryConfig where
  code := "SG"
  exchangeRateToCNY := 530/100
  commissionRate := { other := some (327/10000) }
  transactionFeeRate := 218/10000
  vatRate := 9/100
  dutyRateRange := (0, 5/100)

/-- The country reference table `COUNTRIES`, a lookup keyed by country
code; `none` models a key absent from the JS record. -/
def COUNTRIES (code : String) : Option CountryConfig :=
  if code = "TH" then some THConfig
  else if code = "VN" then some VNConfig
  else if code = "PH" then some PHConfig
  else if code = "MY" then some MYConfig
  else if code = "SG" then some SGConfig
  else none

/-- `config.commissionRate[category]` field selection. -/
def commissionAt (c : CommissionSpec) : Category → Option ℚ
  | Category.electronics => c.electronics
  | Category.other => c.other

/-- `config.commerceGrowthRate[category]` field selection. -/
def growthAt (g : GrowthSpec) : Category → Option ℚ
  | Category.electronics => g.electronics
  | Category.other => g.other

/-- The non-tier part of `getCommissionRate`: a commission range wins
and resolves to its midpoint, otherwise the category rate with JS
falsy fallback to the generic `other` rate and finally `0`. -/
def baseCommissionRate (config : CountryConfig) (category : Category) : ℚ :=
  match config.commissionRate.range with
  | some (lo, hi) => (lo + hi) / 2
  | none => numOr (commissionAt config.commissionRate category) (numOr config.commissionRate.other 0)

/-- `getCommissionRate` of `countryConfig.ts`: unknown country yields
`0`; the Malaysia non-BXP tier range (when present) wins; then the
range-midpoint / category-rate policy of `baseCommissionRate`. -/
def getCommissionRate (countryCode : String) (category : Category) (isBXP : Bool := true) : ℚ :=
  match COUNTRIES countryCode with
  | none => 0
  | some config =>
    match (if countryCode = "MY" && !isBXP then config.commissionRate.bxp else none) with
    | some tier =>
      match tier.range with
      | some (lo, hi) => (lo + hi) / 2
      | none => baseCommissionRate config category
    | none => baseCommissionRate config category

/-- Return value `{ rate, cap }` of `getCommerceGrowthRate`. -/
structure GrowthResult where
  rate : ℚ
  cap : Option ℚ
deriving DecidableEq

/-- `getCommerceGrowthRate` of `countryConfig.ts`. -/
def getCommerceGrowthRate (countryCode : String) (category : Category) : GrowthResult :=
  match COUNTRIES countryCode with
  | none => { rate := 0, cap := none }
  | some config =>
    match config.commerceGrowthRate with
    | none => { rate := 0, cap := none }
    | some growth =>
      { rate := numOr (growthAt growth category) (numOr growth.other 0), cap := growth.cap }

/-- `getOrderProcessingFee` of `countryConfig.ts`: `0` for an unknown
country or an absent/zero configured fee; otherwise the waiver policy
may zero the fee for new sellers or for existing sellers whose monthly
order count is at most the free-order threshold. -/
def getOrderProcessingFee (countryCode : String) (isNewSeller : Bool := false)
    (monthlyOrderCount : ℕ := 0) : ℚ :=
  match COUNTRIES countryCode with
  | none => 0
  | some config =>
    match config.orderProcessingFee with
    | none => 0
    | some fee =>
      if fee = 0 then 0
      else
        match config.orderProcessingFeeWaiver with
        | none => fee
        | some waiver =>
          if isNewSeller = true ∧ waiver.newSeller = true then 0
          else if isNewSeller = false ∧ waiver.existingSeller = true ∧
              monthlyOrderCount ≤ waiver.existingSellerFreeOrders then 0
          else fee

/-- The scalars that `calculatePricing` extracts from the country
entry before iterating; `commerceGrowthFeeCap = none` models the JS
`Infinity` fallback (no cap). -/
structure FeeSchedule where
  commissionRate : ℚ
  commerceGrowthRate : ℚ
  commerceGrowthFeeCap : Option ℚ := none
  transactionFeeRate : ℚ
  vatRate : ℚ
  infrastructureFee : ℚ
  orderProcessingFee : ℚ
deriving DecidableEq

/-- The caller-supplied arguments of `calculatePricing` that drive the
price computation. -/
structure PricingRequest where
  purchaseCost : ℚ
  logisticsCost : ℚ
  dutyRate : ℚ
  targetProfitRate : ℚ
  platformSubsidy : ℚ
  sellerDiscount : ℚ
deriving DecidableEq

/-- `combinedTaxRate = dutyRate + (1 + dutyRate) * vatRate`. -/
def combinedTaxRate (s : FeeSchedule) (r : PricingRequest) : ℚ :=
  r.dutyRate + (1 + r.dutyRate) * s.vatRate

/-- `costBase = purchaseCost + logisticsCost`. -/
def costBase (r : PricingRequest) : ℚ :=
  r.purchaseCost + r.logisticsCost

/-- `taxAmount = purchaseCost * combinedTaxRate` (the import duty
plus the import VAT). -/
def taxAmount (s : FeeSchedule) (r : PricingRequest) : ℚ :=
  r.purchaseCost * combinedTaxRate s r

/-- `targetRevenue = costBase * (1 + targetProfitRate)`. -/
def targetRevenue (r : PricingRequest) : ℚ :=
  costBase r * (1 + r.targetProfitRate)

/-- The linear denominator
`1 - commissionRate - commerceGrowthRate - transactionFeeRate - vatRate/(1+vatRate)`
shared by the closed-form seed and the loop adjustment. -/
def feeDenominator (s : FeeSchedule) : ℚ :=
  1 - s.commissionRate - s.commerceGrowthRate - s.transactionFeeRate -
    s.vatRate / (1 + s.vatRate)

/-- The closed-form seed `P` computed before the loop. -/
def seedPrice (s : FeeSchedule) (r : PricingRequest) : ℚ :=
  (targetRevenue r + s.infrastructureFee + s.orderProcessingFee + taxAmount s r +
    r.sellerDiscount * (s.commissionRate + s.commerceGrowthRate)) / feeDenominator s

/-- `Math.min(discountedPrice * commerceGrowthRate, commerceGrowthFeeCap)`;
an absent cap (JS `Infinity`) leaves the fee uncapped. -/
def commerceGrowthFeeAt (s : FeeSchedule) (discountedPrice : ℚ) : ℚ :=
  match s.commerceGrowthFeeCap with
  | none => discountedPrice * s.commerceGrowthRate
  | some cap => min (discountedPrice * s.commerceGrowthRate) cap

/-- The `actualRevenue` computed from a candidate price `P` inside the
loop body (and again, with identical formulas, in the final breakdown):
price minus commission, capped growth fee, transaction fee, fixed fees,
VAT-inclusive sales VAT and import tax. -/
def actualRevenueAt (s : FeeSchedule) (r : PricingRequest) (P : ℚ) : ℚ :=
  P - (P - r.sellerDiscount) * s.commissionRate -
    commerceGrowthFeeAt s (P - r.sellerDiscount) -
    (P - r.sellerDiscount - r.platformSubsidy) * s.transactionFeeRate -
    s.infrastructureFee - s.orderProcessingFee -
    P / (1 + s.vatRate) * s.vatRate - taxAmount s r

/-- JS `Math.abs`. -/
def mathAbs (x : ℚ) : ℚ :=
  if x < 0 then -x else x

/-- The `for (let i = 0; i < 10; i++)` adjustment loop: break as soon
as `Math.abs(actualRevenue - targetRevenue) < 0.01`, otherwise add
`(targetRevenue - actualRevenue) / feeDenominator` to `P`. -/
def solveLoop (s : FeeSchedule) (r : PricingRequest) : ℕ → ℚ → ℚ
  | 0, P => P
  | n + 1, P =>
    if mathAbs (actualRevenueAt s r P - targetRevenue r) < 1/100 then P
    else solveLoop s r n (P + (targetRevenue r - actualRevenueAt s r P) / feeDenominator s)

/-- The final retail price: ten loop rounds starting from the seed. -/
def solvedPrice (s : FeeSchedule) (r : PricingRequest) : ℚ :=
  solveLoop s r 10 (seedPrice s r)

/-- `costs` block of `PricingResult`. -/
structure CostBreakdown where
  purchaseCost : ℚ
  logisticsCost : ℚ
  totalCost : ℚ
deriving DecidableEq

/-- `taxes` block of `PricingResult`. -/
structure TaxBreakdown where
  importDuty : ℚ
  importVAT : ℚ
  salesVAT : ℚ
  totalTax : ℚ
deriving DecidableEq

/-- `platformFees` block of `PricingResult`. -/
structure PlatformFees where
  commission : ℚ
  commerceGrowth : ℚ
  transaction : ℚ
  infrastructure : ℚ
  orderProcessing : ℚ
  totalFees : ℚ
deriving DecidableEq

/-- `subsidyDiscount` block of `PricingResult`. -/
structure SubsidyDiscount where
  sellerDiscount : ℚ
  platformSubsidy : ℚ
deriving DecidableEq

/-- `revenue` block of `PricingResult`. -/
structure Revenue where
  actualRevenue : ℚ
  actualProfit : ℚ
  profitRate : ℚ
deriving DecidableEq

/-- The `PricingResult` record returned by `calculatePricing`. -/
structure PricingResult where
  retailPrice : ℚ
  preTaxPrice : ℚ
  discountedPrice : ℚ
  costs : CostBreakdown
  taxes : TaxBreakdown
  platformFees : PlatformFees
  subsidyDiscount : SubsidyDiscount
  revenue : Revenue
deriving DecidableEq

/-- The schedule-generic body of `calculatePricing` (lines 77-145 of
`Home.tsx`): solve for the price, then recompute every fee and tax at
the final `P` and assemble the breakdown. -/
def solvePrice (s : FeeSchedule) (r : PricingRequest) : PricingResult :=
  let P := solvedPrice s r
  let discountedPrice := P - r.sellerDiscount
  let commissionFee := discountedPrice * s.commissionRate
  let commerceGrowthFee := commerceGrowthFeeAt s discountedPrice
  let transactionFee := (P - r.sellerDiscount - r.platformSubsidy) * s.transactionFeeRate
  let vatAmount := P / (1 + s.vatRate) * s.vatRate
  let totalPlatformFees :=
    commissionFee + commerceGrowthFee + transactionFee + s.infrastructureFee + s.orderProcessingFee
  let totalTax := taxAmount s r + vatAmount
  let actualRevenue := P - totalPlatformFees - totalTax
  let actualProfit := actualRevenue - costBase r
  { retailPrice := P
    preTaxPrice := P / (1 + s.vatRate)
    discountedPrice := discountedPrice
    costs :=
      { purchaseCost := r.purchaseCost
        logisticsCost := r.logisticsCost
        totalCost := costBase r }
    taxes :=
      { importDuty := r.purchaseCost * r.dutyRate
        importVAT := r.purchaseCost * (1 + r.dutyRate) * s.vatRate
        salesVAT := vatAmount
        totalTax := totalTax }
    platformFees :=
      { commission := commissionFee
        commerceGrowth := commerceGrowthFee
        transaction := transactionFee
        infrastructure := s.infrastructureFee
        orderProcessing := s.orderProcessingFee
        totalFees := totalPlatformFees }
    subsidyDiscount :=
      { sellerDiscount := r.sellerDiscount
        platformSubsidy := r.platformSubsidy }
    revenue :=
      { actualRevenue := actualRevenue
        actualProfit := actualProfit
        profitRate := if costBase r > 0 then actualProfit / costBase r else 0 } }

/-- The schedule extraction at the head of `calculatePricing`:
commission via `getCommissionRate` (default BXP tier), growth rate and
cap via `getCommerceGrowthRate` with the `cap || Infinity` fallback,
fixed fees via `x || 0`. -/
def scheduleFor (countryCode : String) (config : CountryConfig) (category : Category) : FeeSchedule :=
  let growth := getCommerceGrowthRate countryCode category
  { commissionRate := getCommissionRate countryCode category
    commerceGrowthRate := growth.rate
    commerceGrowthFeeCap :=
      match growth.cap with
      | some c => if c = 0 then none else some c
      | none => none
    transactionFeeRate := config.transactionFeeRate
    vatRate := config.vatRate
    infrastructureFee := numOr config.infrastructureFee 0
    orderProcessingFee := numOr config.orderProcessingFee 0 }

/-- `calculatePricing` of `Home.tsx`.  For a country code absent from
`COUNTRIES` the JS code dereferences `undefined` and throws a
`TypeError`; that crash is modelled as `none`. -/
def calculatePricing (countryCode : String) (purchaseCost logisticsCost : ℚ)
    (category : Category) (dutyRate targetProfitRate platformSubsidy sellerDiscount : ℚ) :
    Option PricingResult :=
  match COUNTRIES countryCode with
  | none => none
  | some config =>
    some (solvePrice (scheduleFor countryCode config category)
      { purchaseCost := purchaseCost
        logisticsCost := logisticsCost
        dutyRate := dutyRate
        targetProfitRate := targetProfitRate
        platformSubsidy := platformSubsidy
        sellerDiscount := sellerDiscount })

/-! ## Helper lemmas -/

theorem mathAbs_eq_abs (x : ℚ) : mathAbs x = |x| := by
  by_cases h : x < 0
  · rw [mathAbs, if_pos h, abs_of_neg h]
  · rw [mathAbs, if_neg h, abs_of_nonneg (le_of_not_lt h)]

theorem mathAbs_of_nonneg {x : ℚ} (h : 0 ≤ x) : mathAbs x = x := by
  rw [mathAbs, if_neg (not_lt.mpr h)]

theorem solveLoop_zero (s : FeeSchedule) (r : PricingRequest) (P : ℚ) :
    solveLoop s r 0 P = P := rfl

theorem solveLoop_succ (s : FeeSchedule) (r : PricingRequest) (n : ℕ) (P : ℚ) :
    solveLoop s r (n + 1) P =
      if mathAbs (actualRevenueAt s r P - targetRevenue r) < 1/100 then P
      else solveLoop s r n (P + (targetRevenue r - actualRevenueAt s r P) / feeDenominator s) :=
  rfl

theorem solveLoop_break (s : FeeSchedule) (r : PricingRequest) (n : ℕ) (P : ℚ)
    (h : mathAbs (actualRevenueAt s r P - targetRevenue r) < 1/100) :
    solveLoop s r (n + 1) P = P := by
  rw [solveLoop_succ, if_pos h]

theorem solveLoop_step (s : FeeSchedule) (r : PricingRequest) (n : ℕ) (P : ℚ)
    (h : ¬ mathAbs (actualRevenueAt s r P - targetRevenue r) < 1/100) :
    solveLoop s r (n + 1) P =
      solveLoop s r n (P + (targetRevenue r - actualRevenueAt s r P) / feeDenominator s) := by
  rw [solveLoop_succ, if_neg h]

theorem solvePrice_retailPrice (s : FeeSchedule) (r : PricingRequest) :
    (solvePrice s r).retailPrice = solvedPrice s r := rfl

/-- With no growth-fee cap the per-price revenue map is linear with
slope `feeDenominator`. -/
theorem actualRevenueAt_linear (s : FeeSchedule) (r : PricingRequest) (P : ℚ)
    (hcap : s.commerceGrowthFeeCap = none) :
    actualRevenueAt s r P =
      feeDenominator s * P +
        (r.sellerDiscount * (s.commissionRate + s.commerceGrowthRate) +
          (r.sellerDiscount + r.platformSubsidy) * s.transactionFeeRate -
          s.infrastructureFee - s.orderProcessingFee - taxAmount s r) := by
  simp only [actualRevenueAt, commerceGrowthFeeAt, hcap, feeDenominator]
  ring

/-- The amount by which the revenue at the seed price overshoots the
target in the uncapped system: the seed formula carries
`+ sellerDiscount * (c + g)` where hitting the target exactly would
need `- sellerDiscount * (c + g) - (sellerDiscount + platformSubsidy) * t`. -/
def seedGap (s : FeeSchedule) (r : PricingRequest) : ℚ :=
  2 * r.sellerDiscount * (s.commissionRate + s.commerceGrowthRate) +
    (r.sellerDiscount + r.platformSubsidy) * s.transactionFeeRate

theorem actualRevenueAt_seed (s : FeeSchedule) (r : PricingRequest)
    (hcap : s.commerceGrowthFeeCap = none) (hD : feeDenominator s ≠ 0) :
    actualRevenueAt s r (seedPrice s r) = targetRevenue r + seedGap s r := by
  rw [actualRevenueAt_linear s r _ hcap, seedPrice, mul_comm, div_mul_cancel₀ _ hD, seedGap]
  ring

theorem actualRevenueAt_shift (s : FeeSchedule) (r : PricingRequest) (P q : ℚ)
    (hcap : s.commerceGrowthFeeCap = none) :
    actualRevenueAt s r (P - q) = actualRevenueAt s r P - feeDenominator s * q := by
  rw [actualRevenueAt_linear s r _ hcap, actualRevenueAt_linear s r P hcap]
  ring

/-- Closed form of the ten-round loop for uncapped schedules: either
the seed residual `seedGap` is already inside the 0.01 tolerance and
the seed is returned unchanged, or exactly one adjustment of
`- seedGap / feeDenominator` is applied and the loop then stops. -/
theorem solvedPrice_uncapped (s : FeeSchedule) (r : PricingRequest)
    (hcap : s.commerceGrowthFeeCap = none) (hD : feeDenominator s ≠ 0)
    (hK : 0 ≤ seedGap s r) :
    solvedPrice s r =
      if seedGap s r < 1/100 then seedPrice s r
      else seedPrice s r - seedGap s r / feeDenominator s := by
  have hseed := actualRevenueAt_seed s r hcap hD
  have hres : actualRevenueAt s r (seedPrice s r) - targetRevenue r = seedGap s r := by
    rw [hseed]; ring
  by_cases h : seedGap s r < 1/100
  · rw [if_pos h, solvedPrice]
    exact solveLoop_break s r 9 _ (by rw [hres, mathAbs_of_nonneg hK]; exact h)
  · rw [if_neg h, solvedPrice]
    have hstep := solveLoop_step s r 9 (seedPrice s r)
      (by rw [hres, mathAbs_of_nonneg hK]; exact h)
    rw [hstep]
    have harg : seedPrice s r + (targetRevenue r - actualRevenueAt s r (seedPrice s r)) /
        feeDenominator s = seedPrice s r - seedGap s r / feeDenominator s := by
      rw [hseed]; ring
    rw [harg]
    have hrev2 : actualRevenueAt s r (seedPrice s r - seedGap s r / feeDenominator s) =
        targetRevenue r := by
      rw [actualRevenueAt_shift s r _ _ hcap, hseed, mul_comm, div_mul_cancel₀ _ hD]
      ring
    exact solveLoop_break s r 8 _ (by rw [hrev2, sub_self, mathAbs_of_nonneg le_rfl]; norm_num)

/-- The result's `actualProfit` field rewritten through the loop-body
revenue formula. -/
theorem solvePrice_actualProfit (s : FeeSchedule) (r : PricingRequest) :
    (solvePrice s r).revenue.actualProfit =
      actualRevenueAt s r (solvedPrice s r) - costBase r := by
  simp only [solvePrice, actualRevenueAt]
  ring

/-! ## Claims -/

/-- Round-trip recomputation of the merchant profit at a retail price
`P`: subtract from `P` the commission on the discounted price, the
capped growth fee, the transaction fee on the subsidy/discount-adjusted
price, both fixed fees, the VAT-inclusive sales VAT, the import duty,
the import VAT, and the cost base. -/
def roundTripProfit (s : FeeSchedule) (r : PricingRequest) (P : ℚ) : ℚ :=
  P - (P - r.sellerDiscount) * s.commissionRate -
    commerceGrowthFeeAt s (P - r.sellerDiscount) -
    (P - r.sellerDiscount - r.platformSubsidy) * s.transactionFeeRate -
    s.infrastructureFee - s.orderProcessingFee -
    P / (1 + s.vatRate) * s.vatRate -
    r.purchaseCost * r.dutyRate - r.purchaseCost * (1 + r.dutyRate) * s.vatRate -
    costBase r

/-- C4: for every schedule and request, recomputing every fee and tax
at the solver's output retail price and subtracting them and the cost
base from it reproduces the reported `actualProfit` to within 0.01
currency units (here: exactly, hence certainly within 0.01). -/
theorem roundTrip_reproduces_actualProfit (s : FeeSchedule) (r : PricingRequest) :
    |roundTripProfit s r (solvePrice s r).retailPrice -
      (solvePrice s r).revenue.actualProfit| < 1/100 := by
  have heq : roundTripProfit s r (solvePrice s r).retailPrice =
      (solvePrice s r).revenue.actualProfit := by
    rw [solvePrice_actualProfit, solvePrice_retailPrice, roundTripProfit, actualRevenueAt,
      taxAmount, combinedTaxRate]
    ring
  rw [heq, sub_self, abs_zero]
  norm_num

/-- C6: in every result of the solver the commission fee is computed on
the discounted price (no platform-subsidy deduction in its base) while
the transaction fee is computed on the discounted and subsidised price:
subsidy reduces the transaction-fee base but never the commission base. -/
theorem commission_transaction_bases (s : FeeSchedule) (r : PricingRequest) :
    (solvePrice s r).platformFees.commission =
        ((solvePrice s r).retailPrice - r.sellerDiscount) * s.commissionRate ∧
      (solvePrice s r).platformFees.transaction =
        ((solvePrice s r).retailPrice - r.sellerDiscount - r.platformSubsidy) *
          s.transactionFeeRate :=
  ⟨rfl, rfl⟩

/-- C9: a request with zero cost base still produces a result and its
profit rate is the guarded value 0. -/
theorem profitRate_zero_costBase (s : FeeSchedule) (r : PricingRequest)
    (h : r.purchaseCost + r.logisticsCost = 0) :
    (solvePrice s r).revenue.profitRate = 0 := by
  have hcb : costBase r = 0 := h
  simp only [solvePrice, hcb]
  norm_num

/-- C9 witness: concrete zero-cost request. -/
theorem profitRate_zero_costBase_witness :
    (solvePrice
      { commissionRate := 1/10, commerceGrowthRate := 0, commerceGrowthFeeCap := none,
        transactionFeeRate := 1/10, vatRate := 1/10, infrastructureFee := 1,
        orderProcessingFee := 0 }
      { purchaseCost := 0, logisticsCost := 0, dutyRate := 1/10, targetProfitRate := 3/10,
        platformSubsidy := 0, sellerDiscount := 0 }).revenue.profitRate = 0 :=
  profitRate_zero_costBase _ _ (by norm_num)

/-- C10: breakdown consistency of every returned result — the totals
of each block and the revenue/profit chain hold exactly. -/
theorem breakdown_consistency (s : FeeSchedule) (r : PricingRequest) :
    (solvePrice s r).costs.totalCost =
        (solvePrice s r).costs.purchaseCost + (solvePrice s r).costs.logisticsCost ∧
      (solvePrice s r).taxes.totalTax =
        (solvePrice s r).taxes.importDuty + (solvePrice s r).taxes.importVAT +
          (solvePrice s r).taxes.salesVAT ∧
      (solvePrice s r).platformFees.totalFees =
        (solvePrice s r).platformFees.commission + (solvePrice s r).platformFees.commerceGrowth +
          (solvePrice s r).platformFees.transaction +
          (solvePrice s r).platformFees.infrastructure +
          (solvePrice s r).platformFees.orderProcessing ∧
      (solvePrice s r).revenue.actualRevenue =
        (solvePrice s r).retailPrice - (solvePrice s r).platformFees.totalFees -
          (solvePrice s r).taxes.totalTax ∧
      (solvePrice s r).revenue.actualProfit =
        (solvePrice s r).revenue.actualRevenue - (solvePrice s r).costs.totalCost := by
  refine ⟨rfl, ?_, rfl, rfl, rfl⟩
  simp only [solvePrice, taxAmount, combinedTaxRate, costBase]
  ring

/-- A degenerate schedule: combined rate
`c + g + t + v/(1+v) = 0.6 + 0.6 = 1.2 ≥ 1`. -/
def degSchedule : FeeSchedule where
  commissionRate := 3/5
  commerceGrowthRate := 0
  commerceGrowthFeeCap := none
  transactionFeeRate := 3/5
  vatRate := 0
  infrastructureFee := 0
  orderProcessingFee := 0

/-- A plain request with positive cost base and no discount/subsidy. -/
def degRequest : PricingRequest where
  purchaseCost := 100
  logisticsCost := 0
  dutyRate := 0
  targetProfitRate := 0
  platformSubsidy := 0
  sellerDiscount := 0

/-- C1 counterexample: the combined rate of `degSchedule` is `≥ 1`,
yet the solver does not reject it — `calculatePricing` has no failure
path at all and here returns a fully-assembled `PricingResult` with
retail price `-500` instead of a `DegenerateSchedule` error. -/
theorem degenerate_schedule_not_rejected :
    1 - feeDenominator degSchedule ≥ 1 ∧
      (solvePrice degSchedule degRequest).retailPrice = -500 := by
  constructor
  · norm_num [feeDenominator, degSchedule]
  · rw [solvePrice_retailPrice,
      solvedPrice_uncapped degSchedule degRequest rfl
        (by norm_num [feeDenominator, degSchedule])
        (by norm_num [seedGap, degSchedule, degRequest]),
      if_pos (by norm_num [seedGap, degSchedule, degRequest])]
    norm_num [seedPrice, targetRevenue, costBase, taxAmount, combinedTaxRate,
      feeDenominator, degSchedule, degRequest]

/-- C1 amended: the solver performs no degeneracy validation and the
code has no failure kinds; for any uncapped schedule whose combined
rate exceeds 1 (negative linear denominator) and any
discount/subsidy-free request with positive target-plus-fixed-charges,
it returns a result whose retail price is negative instead of an
error. -/
theorem degenerate_schedule_negative_price (s : FeeSchedule) (r : PricingRequest)
    (hcap : s.commerceGrowthFeeCap = none) (hd : r.sellerDiscount = 0)
    (hs : r.platformSubsidy = 0) (hD : feeDenominator s < 0)
    (hN : 0 < targetRevenue r + s.infrastructureFee + s.orderProcessingFee + taxAmount s r) :
    (solvePrice s r).retailPrice < 0 := by
  have hK : seedGap s r = 0 := by rw [seedGap, hd, hs]; ring
  rw [solvePrice_retailPrice, solvedPrice_uncapped s r hcap (ne_of_lt hD) (le_of_eq hK.symm),
    if_pos (by rw [hK]; norm_num), seedPrice, hd]
  have hnum : targetRevenue r + s.infrastructureFee + s.orderProcessingFee + taxAmount s r +
      0 * (s.commissionRate + s.commerceGrowthRate) =
      targetRevenue r + s.infrastructureFee + s.orderProcessingFee + taxAmount s r := by
    ring
  rw [hnum]
  exact div_neg_of_pos_of_neg hN hD

/-- C1 witness: the amended theorem applied to the concrete degenerate
schedule. -/
theorem degenerate_schedule_negative_price_witness :
    (solvePrice degSchedule degRequest).retailPrice < 0 :=
  degenerate_schedule_negative_price degSchedule degRequest rfl rfl rfl
    (by norm_num [feeDenominator, degSchedule])
    (by norm_num [targetRevenue, costBase, taxAmount, combinedTaxRate, degSchedule, degRequest])

/-- A valid uncapped schedule (combined rate `0.2 < 1`). -/
def discountSchedule : FeeSchedule where
  commissionRate := 1/10
  commerceGrowthRate := 0
  commerceGrowthFeeCap := none
  transactionFeeRate := 1/10
  vatRate := 0
  infrastructureFee := 0
  orderProcessingFee := 0

/-- A request with a nonzero seller discount. -/
def discountRequest : PricingRequest where
  purchaseCost := 100
  logisticsCost := 0
  dutyRate := 0
  targetProfitRate := 0
  platformSubsidy := 0
  sellerDiscount := 100

/-- C2 counterexample: a valid uncapped schedule and a request with
`sellerDiscount = 100` on which the final price (100) differs from the
closed-form seed (137.5) by 37.5 — far beyond 0.01 — because the seed
formula mishandles the discount/subsidy terms and one loop iteration
is needed. -/
theorem seed_not_exact_with_discount :
    discountSchedule.commerceGrowthFeeCap = none ∧
      0 < feeDenominator discountSchedule ∧
      |(solvePrice discountSchedule discountRequest).retailPrice -
        seedPrice discountSchedule discountRequest| > 1/100 := by
  refine ⟨rfl, by norm_num [feeDenominator, discountSchedule], ?_⟩
  have h1 : (solvePrice discountSchedule discountRequest).retailPrice = 100 := by
    rw [solvePrice_retailPrice,
      solvedPrice_uncapped discountSchedule discountRequest rfl
        (by norm_num [feeDenominator, discountSchedule])
        (by norm_num [seedGap, discountSchedule, discountRequest]),
      if_neg (by norm_num [seedGap, discountSchedule, discountRequest])]
    norm_num [seedPrice, seedGap, targetRevenue, costBase, taxAmount, combinedTaxRate,
      feeDenominator, discountSchedule, discountRequest]
  have h2 : seedPrice discountSchedule discountRequest = 275/2 := by
    norm_num [seedPrice, targetRevenue, costBase, taxAmount, combinedTaxRate,
      feeDenominator, discountSchedule, discountRequest]
  rw [h1, h2, show (100 : ℚ) - 275/2 = -(75/2) by norm_num, abs_neg,
    abs_of_pos (by norm_num : (0:ℚ) < 75/2)]
  norm_num

/-- C2 amended: for every schedule with no growth-fee cap and nonzero
linear denominator, and every request with `sellerDiscount = 0` and
`platformSubsidy = 0`, the final retail price equals the closed-form
seed exactly (the loop breaks before any adjustment).  With a nonzero
discount or subsidy the seed misses the fixed point by
`seedGap / feeDenominator` and one extra iteration is taken. -/
theorem seed_exact_without_discount_subsidy (s : FeeSchedule) (r : PricingRequest)
    (hcap : s.commerceGrowthFeeCap = none) (hd : r.sellerDiscount = 0)
    (hs : r.platformSubsidy = 0) (hD : feeDenominator s ≠ 0) :
    (solvePrice s r).retailPrice = seedPrice s r := by
  have hK : seedGap s r = 0 := by rw [seedGap, hd, hs]; ring
  rw [solvePrice_retailPrice, solvedPrice_uncapped s r hcap hD (le_of_eq hK.symm),
    if_pos (by rw [hK]; norm_num)]

/-- Thailand-like uncapped schedule for the C2 witness. -/
def uncappedSchedule : FeeSchedule where
  commissionRate := 642/10000
  commerceGrowthRate := 0
  commerceGrowthFeeCap := none
  transactionFeeRate := 321/10000
  vatRate := 7/100
  infrastructureFee := 107/100
  orderProcessingFee := 0

/-- Discount/subsidy-free request for the C2 witness. -/
def uncappedRequest : PricingRequest where
  purchaseCost := 20
  logisticsCost := 55/10
  dutyRate := 3/10
  targetProfitRate := 3/10
  platformSubsidy := 0
  sellerDiscount := 0

/-- C2 witness: the amended theorem at a concrete uncapped schedule. -/
theorem seed_exact_without_discount_subsidy_witness :
    (solvePrice uncappedSchedule uncappedRequest).retailPrice =
      seedPrice uncappedSchedule uncappedRequest :=
  seed_exact_without_discount_subsidy uncappedSchedule uncappedRequest rfl rfl rfl
    (by norm_num [feeDenominator, uncappedSchedule])

/-- C3 counterexample: the country code `"XX"` is absent from the
reference table, yet `getCommissionRate` does not fail — it silently
returns the default commission rate 0. -/
theorem unknown_country_silently_defaults :
    COUNTRIES "XX" = none ∧ getCommissionRate "XX" Category.other = 0 :=
  ⟨rfl, rfl⟩

/-- C3 amended: no `UnknownCountry` error exists anywhere in the code.
For every country code absent from the table, `getCommissionRate`
silently returns the default 0 (for any category and seller tier), and
`calculatePricing` produces no error value either — it crashes
dereferencing the missing config, modelled as `none`. -/
theorem unknown_country_behaviour (code : String) (cat : Category) (b : Bool)
    (pc lc dr tpr ps sd : ℚ) (h : COUNTRIES code = none) :
    getCommissionRate code cat b = 0 ∧ calculatePricing code pc lc cat dr tpr ps sd = none := by
  constructor
  · simp only [getCommissionRate, h]
  · simp only [calculatePricing, h]

/-- C3 witness: the amended theorem at the concrete unknown code. -/
theorem unknown_country_behaviour_witness :
    getCommissionRate "XX" Category.electronics false = 0 ∧
      calculatePricing "XX" 1 2 Category.electronics 0 0 0 0 = none :=
  unknown_country_behaviour "XX" Category.electronics false 1 2 0 0 0 0 rfl

/-- C7: for a country with a configured (nonzero) order-processing fee
whose waiver policy covers existing sellers with a free-order threshold
of 50, a non-new seller pays nothing at a monthly order count of
exactly 50 and the full configured fee at 51. -/
theorem waiver_boundary (code : String) (cfg : CountryConfig) (fee : ℚ) (w : WaiverSpec)
    (hcfg : COUNTRIES code = some cfg) (hfee : cfg.orderProcessingFee = some fee)
    (hf0 : fee ≠ 0) (hw : cfg.orderProcessingFeeWaiver = some w)
    (hex : w.existingSeller = true) (h50 : w.existingSellerFreeOrders = 50) :
    getOrderProcessingFee code false 50 = 0 ∧ getOrderProcessingFee code false 51 = fee := by
  constructor <;>
    simp [getOrderProcessingFee, hcfg, hfee, hf0, hw, hex, h50]

/-- C7 witness: the Philippines entry (fee 3, threshold 50). -/
theorem waiver_boundary_witness :
    getOrderProcessingFee "PH" false 50 = 0 ∧ getOrderProcessingFee "PH" false 51 = 3 :=
  waiver_boundary "PH" PHConfig 3
    { newSeller := true, newSellerDays := 90, existingSeller := true,
      existingSellerFreeOrders := 50 }
    rfl rfl (by norm_num) rfl rfl rfl

/-- C8: commission selection for every country of the reference table
(at the default seller tier): a configured commission range resolves to
its arithmetic midpoint; otherwise the category-specific rate is used,
falling back to the country's generic `other` rate when the requested
category has no dedicated rate. -/
theorem commission_selection_policy (code : String) (cfg : CountryConfig) (cat : Category)
    (hcfg : COUNTRIES code = some cfg) :
    (∀ lo hi, cfg.commissionRate.range = some (lo, hi) →
        getCommissionRate code cat = (lo + hi) / 2) ∧
      (cfg.commissionRate.range = none →
        ∀ v, commissionAt cfg.commissionRate cat = some v → getCommissionRate code cat = v) ∧
      (cfg.commissionRate.range = none → commissionAt cfg.commissionRate cat = none →
        ∀ w, cfg.commissionRate.other = some w → getCommissionRate code cat = w) := by
  have hcode : code = "TH" ∨ code = "VN" ∨ code = "PH" ∨ code = "MY" ∨ code = "SG" := by
    by_contra hno
    push_neg at hno
    obtain ⟨n1, n2, n3, n4, n5⟩ := hno
    rw [COUNTRIES, if_neg n1, if_neg n2, if_neg n3, if_neg n4, if_neg n5] at hcfg
    exact Option.noConfusion hcfg
  obtain rfl | rfl | rfl | rfl | rfl := hcode
  all_goals injection hcfg with hc
  all_goals subst hc
  all_goals refine ⟨fun lo hi hr => ?_, fun hrange v hv => ?_, fun hrange hnone w hw => ?_⟩
  all_goals cases cat
  all_goals
    simp_all [getCommissionRate, COUNTRIES, baseCommissionRate, commissionAt, numOr,
      THConfig, VNConfig, PHConfig, MYConfig, SGConfig]
  all_goals (try subst hv)
  all_goals norm_num [numOr]

/-- C8 witness: Thailand (flat category rates) resolves electronics to
its dedicated rate; the Philippines (range) resolves to the midpoint. -/
theorem commission_selection_policy_witness :
    getCommissionRate "TH" Category.electronics = 535/10000 ∧
      getCommissionRate "PH" Category.other = (5/100 + 91/1000) / 2 := by
  constructor
  · exact (commission_selection_policy "TH" THConfig Category.electronics rfl).2.1 rfl
      (535/10000) rfl
  · exact (commission_selection_policy "PH" PHConfig Category.other rfl).1 (5/100) (91/1000) rfl

/-- A valid schedule with a binding growth-fee cap
(`c = 0.24`, `g = 0.36`, cap 10, denominator `0.4 > 0`). -/
def capSchedule : FeeSchedule where
  commissionRate := 6/25
  commerceGrowthRate := 9/25
  commerceGrowthFeeCap := some 10
  transactionFeeRate := 0
  vatRate := 0
  infrastructureFee := 0
  orderProcessingFee := 0

/-- Request with target profit rate 11.24%. -/
def capRequestLow : PricingRequest where
  purchaseCost := 10
  logisticsCost := 0
  dutyRate := 0
  targetProfitRate := 1124/10000
  platformSubsidy := 0
  sellerDiscount := 0

/-- The same request with target profit rate 11.26%. -/
def capRequestHigh : PricingRequest where
  purchaseCost := 10
  logisticsCost := 0
  dutyRate := 0
  targetProfitRate := 1126/10000
  platformSubsidy := 0
  sellerDiscount := 0

/-- C5 counterexample: two requests differing only in
`targetProfitRate` (11.24% vs 11.26%) on a valid capped schedule with
positive cost base, where the larger target solves to a strictly
SMALLER retail price (27.784515 < 27.8071): raising the target moves
the loop's 0.01 early-exit boundary past an overshooting iterate, so
one more oscillating Newton step is taken downward. -/
theorem retailPrice_not_monotone_in_target :
    capRequestHigh = { capRequestLow with targetProfitRate := 1126/10000 } ∧
      capRequestLow.targetProfitRate < capRequestHigh.targetProfitRate ∧
      (solvePrice capSchedule capRequestHigh).retailPrice <
        (solvePrice capSchedule capRequestLow).retailPrice := by
  refine ⟨rfl, by norm_num [capRequestLow, capRequestHigh], ?_⟩
  have hA : (solvePrice capSchedule capRequestLow).retailPrice = 278071/10000 := by
    have e0 : seedPrice capSchedule capRequestLow = 2781/100 := by
      norm_num [seedPrice, targetRevenue, costBase, taxAmount, combinedTaxRate,
        feeDenominator, capSchedule, capRequestLow]
    have a0 : actualRevenueAt capSchedule capRequestLow (2781/100) = 27839/2500 := by
      norm_num [actualRevenueAt, commerceGrowthFeeAt, min_def, taxAmount, combinedTaxRate,
        capSchedule, capRequestLow]
    have a1 : actualRevenueAt capSchedule capRequestLow (27781/1000) = 277839/25000 := by
      norm_num [actualRevenueAt, commerceGrowthFeeAt, min_def, taxAmount, combinedTaxRate,
        capSchedule, capRequestLow]
    have a2 : actualRevenueAt capSchedule capRequestLow (278071/10000) = 2783349/250000 := by
      norm_num [actualRevenueAt, commerceGrowthFeeAt, min_def, taxAmount, combinedTaxRate,
        capSchedule, capRequestLow]
    have c0 : ¬ mathAbs (actualRevenueAt capSchedule capRequestLow (2781/100) -
        targetRevenue capRequestLow) < 1/100 := by
      rw [a0]
      norm_num [mathAbs, targetRevenue, costBase, capRequestLow]
    have c1 : ¬ mathAbs (actualRevenueAt capSchedule capRequestLow (27781/1000) -
        targetRevenue capRequestLow) < 1/100 := by
      rw [a1]
      norm_num [mathAbs, targetRevenue, costBase, capRequestLow]
    have c2 : mathAbs (actualRevenueAt capSchedule capRequestLow (278071/10000) -
        targetRevenue capRequestLow) < 1/100 := by
      rw [a2]
      norm_num [mathAbs, targetRevenue, costBase, capRequestLow]
    have arg1 : 2781/100 + (targetRevenue capRequestLow -
        actualRevenueAt capSchedule capRequestLow (2781/100)) / feeDenominator capSchedule =
        27781/1000 := by
      rw [a0]
      norm_num [targetRevenue, costBase, feeDenominator, capSchedule, capRequestLow]
    have arg2 : 27781/1000 + (targetRevenue capRequestLow -
        actualRevenueAt capSchedule capRequestLow (27781/1000)) / feeDenominator capSchedule =
        278071/10000 := by
      rw [a1]
      norm_num [targetRevenue, costBase, feeDenominator, capSchedule, capRequestLow]
    rw [solvePrice_retailPrice, solvedPrice, e0, show (10:ℕ) = 9 + 1 from rfl,
      solveLoop_step capSchedule capRequestLow 9 (2781/100) c0, arg1,
      show (9:ℕ) = 8 + 1 from rfl,
      solveLoop_step capSchedule capRequestLow 8 (27781/1000) c1, arg2,
      show (8:ℕ) = 7 + 1 from rfl,
      solveLoop_break capSchedule capRequestLow 7 (278071/10000) c2]
  have hB : (solvePrice capSchedule capRequestHigh).retailPrice = 5556903/200000 := by
    have e0 : seedPrice capSchedule capRequestHigh = 5563/200 := by
      norm_num [seedPrice, targetRevenue, costBase, taxAmount, combinedTaxRate,
        feeDenominator, capSchedule, capRequestHigh]
    have a0 : actualRevenueAt capSchedule capRequestHigh (5563/200) = 55697/5000 := by
      norm_num [actualRevenueAt, commerceGrowthFeeAt, min_def, taxAmount, combinedTaxRate,
        capSchedule, capRequestHigh]
    have a1 : actualRevenueAt capSchedule capRequestHigh (55563/2000) = 555697/50000 := by
      norm_num [actualRevenueAt, commerceGrowthFeeAt, min_def, taxAmount, combinedTaxRate,
        capSchedule, capRequestHigh]
    have a2 : actualRevenueAt capSchedule capRequestHigh (556233/20000) = 5568427/500000 := by
      norm_num [actualRevenueAt, commerceGrowthFeeAt, min_def, taxAmount, combinedTaxRate,
        capSchedule, capRequestHigh]
    have a3 : actualRevenueAt capSchedule capRequestHigh (5556903/200000) =
        55581157/5000000 := by
      norm_num [actualRevenueAt, commerceGrowthFeeAt, min_def, taxAmount, combinedTaxRate,
        capSchedule, capRequestHigh]
    have c0 : ¬ mathAbs (actualRevenueAt capSchedule capRequestHigh (5563/200) -
        targetRevenue capRequestHigh) < 1/100 := by
      rw [a0]
      norm_num [mathAbs, targetRevenue, costBase, capRequestHigh]
    have c1 : ¬ mathAbs (actualRevenueAt capSchedule capRequestHigh (55563/2000) -
        targetRevenue capRequestHigh) < 1/100 := by
      rw [a1]
      norm_num [mathAbs, targetRevenue, costBase, capRequestHigh]
    have c2 : ¬ mathAbs (actualRevenueAt capSchedule capRequestHigh (556233/20000) -
        targetRevenue capRequestHigh) < 1/100 := by
      rw [a2]
      norm_num [mathAbs, targetRevenue, costBase, capRequestHigh]
    have c3 : mathAbs (actualRevenueAt capSchedule capRequestHigh (5556903/200000) -
        targetRevenue capRequestHigh) < 1/100 := by
      rw [a3]
      norm_num [mathAbs, targetRevenue, costBase, capRequestHigh]
    have arg1 : 5563/200 + (targetRevenue capRequestHigh -
        actualRevenueAt capSchedule capRequestHigh (5563/200)) / feeDenominator capSchedule =
        55563/2000 := by
      rw [a0]
      norm_num [targetRevenue, costBase, feeDenominator, capSchedule, capRequestHigh]
    have arg2 : 55563/2000 + (targetRevenue capRequestHigh -
        actualRevenueAt capSchedule capRequestHigh (55563/2000)) / feeDenominator capSchedule =
        556233/20000 := by
      rw [a1]
      norm_num [targetRevenue, costBase, feeDenominator, capSchedule, capRequestHigh]
    have arg3 : 556233/20000 + (targetRevenue capRequestHigh -
        actualRevenueAt capSchedule capRequestHigh (556233/20000)) / feeDenominator capSchedule =
        5556903/200000 := by
      rw [a2]
      norm_num [targetRevenue, costBase, feeDenominator, capSchedule, capRequestHigh]
    rw [solvePrice_retailPrice, solvedPrice, e0, show (10:ℕ) = 9 + 1 from rfl,
      solveLoop_step capSchedule capRequestHigh 9 (5563/200) c0, arg1,
      show (9:ℕ) = 8 + 1 from rfl,
      solveLoop_step capSchedule capRequestHigh 8 (55563/2000) c1, arg2,
      show (8:ℕ) = 7 + 1 from rfl,
      solveLoop_step capSchedule capRequestHigh 7 (556233/20000) c2, arg3,
      show (7:ℕ) = 6 + 1 from rfl,
      solveLoop_break capSchedule capRequestHigh 6 (5556903/200000) c3]
  rw [hA, hB]
  norm_num

/-- C5 amended: the solved retail price is strictly increasing in
`targetProfitRate` provided the schedule is valid (positive linear
denominator, nonnegative rates), has no growth-fee cap, the request's
discount and subsidy are nonnegative, and the cost base is positive.
(The original claim fails both when the cost base is 0 — the price is
then independent of the target — and, as the counterexample shows,
when a finite cap interacts with the loop's early-exit tolerance.) -/
theorem retailPrice_strictMono_in_target (s : FeeSchedule) (r : PricingRequest) (t1 t2 : ℚ)
    (hcap : s.commerceGrowthFeeCap = none) (hD : 0 < feeDenominator s)
    (hc : 0 ≤ s.commissionRate) (hg : 0 ≤ s.commerceGrowthRate)
    (ht : 0 ≤ s.transactionFeeRate) (hd0 : 0 ≤ r.sellerDiscount)
    (hs0 : 0 ≤ r.platformSubsidy) (hcb : 0 < costBase r) (h12 : t1 < t2) :
    (solvePrice s { r with targetProfitRate := t1 }).retailPrice <
      (solvePrice s { r with targetProfitRate := t2 }).retailPrice := by
  have hK : 0 ≤ seedGap s r :=
    add_nonneg (mul_nonneg (mul_nonneg (by norm_num) hd0) (add_nonneg hc hg))
      (mul_nonneg (add_nonneg hd0 hs0) ht)
  rw [solvePrice_retailPrice, solvePrice_retailPrice,
    solvedPrice_uncapped s { r with targetProfitRate := t1 } hcap (ne_of_gt hD) hK,
    solvedPrice_uncapped s { r with targetProfitRate := t2 } hcap (ne_of_gt hD) hK,
    show seedGap s { r with targetProfitRate := t1 } = seedGap s r from rfl,
    show seedGap s { r with targetProfitRate := t2 } = seedGap s r from rfl]
  have hseed : seedPrice s { r with targetProfitRate := t1 } <
      seedPrice s { r with targetProfitRate := t2 } := by
    rw [seedPrice, seedPrice,
      show taxAmount s { r with targetProfitRate := t1 } = taxAmount s r from rfl,
      show taxAmount s { r with targetProfitRate := t2 } = taxAmount s r from rfl,
      show targetRevenue { r with targetProfitRate := t1 } = costBase r * (1 + t1) from rfl,
      show targetRevenue { r with targetProfitRate := t2 } = costBase r * (1 + t2) from rfl]
    rw [div_lt_div_iff_of_pos_right hD]
    have hmul : costBase r * (1 + t1) < costBase r * (1 + t2) :=
      mul_lt_mul_of_pos_left (by linarith) hcb
    linarith
  by_cases h : seedGap s r < 1/100
  · rw [if_pos h, if_pos h]
    exact hseed
  · rw [if_neg h, if_neg h]
    exact sub_lt_sub_right hseed _

/-- Valid uncapped schedule with nonzero discount and subsidy for the
C5 witness. -/
def monoSchedule : FeeSchedule where
  commissionRate := 1/10
  commerceGrowthRate := 1/10
  commerceGrowthFeeCap := none
  transactionFeeRate := 1/10
  vatRate := 0
  infrastructureFee := 1
  orderProcessingFee := 0

/-- Positive-cost request for the C5 witness. -/
def monoRequest : PricingRequest where
  purchaseCost := 10
  logisticsCost := 0
  dutyRate := 0
  targetProfitRate := 0
  platformSubsidy := 2
  sellerDiscount := 3

/-- C5 witness: the amended monotonicity theorem at concrete inputs. -/
theorem retailPrice_strictMono_in_target_witness :
    (solvePrice monoSchedule { monoRequest with targetProfitRate := 0 }).retailPrice <
      (solvePrice monoSchedule { monoRequest with targetProfitRate := 1 }).retailPrice :=
  retailPrice_strictMono_in_target monoSchedule monoRequest 0 1 rfl
    (by norm_num [feeDenominator, monoSchedule])
    (by norm_num [monoSchedule]) (by norm_num [monoSchedule]) (by norm_num [monoSchedule])
    (by norm_num [monoRequest]) (by norm_num [monoRequest])
    (by norm_num [costBase, monoRequest]) (by norm_num)

end TikTokPricing
